import Mathlib

set_option maxRecDepth 40000

/-!
Shallow embedding of the Payliance debit-settlement Azure Function app
(`function_app.py`, `database.py`).  Python strings are modelled as Lean
`String`, `None`-able values as `Option`, and the two I/O collaborators
(the gateway HTTP call and the database) as explicit oracle inputs to the
dispatch function.  Python dictionary `.get(key, default)` with a missing
key is modelled as `Option.getD`, and Python truthiness of an optional
string (`None` and `""` are falsy) as `pyTruthyStr`.
-/

/-- ASCII lowering of one character, the fragment of Python `str.lower`
relevant to the all-ASCII messages and keywords of `classify_error`. -/
def lowerChar (c : Char) : Char :=
  if 65 ≤ c.toNat ∧ c.toNat ≤ 90 then Char.ofNat (c.toNat + 32) else c

/-- ASCII `str.lower` on a whole string. -/
def lowerStr (s : String) : String :=
  String.mk (s.toList.map lowerChar)

/-- Substring search on character lists: Python `needle in hay`. -/
def infixSearch (needle : List Char) : List Char → Bool
  | [] => needle.isEmpty
  | c :: rest => List.isPrefixOf needle (c :: rest) || infixSearch needle rest

/-- Python `needle in hay` on strings. -/
def containsSub (hay needle : String) : Bool :=
  infixSearch needle.toList hay.toList

/-- Python truthiness of an optional string: `None` and `""` are falsy. -/
def pyTruthyStr : Option String → Bool
  | Option.none => false
  | Option.some s => s != ""

/-- The decimal digit character for `n < 10`. -/
def natDigitChar (n : Nat) : Char := Char.ofNat (48 + n)

/-- Decimal digit characters of `n`, with explicit structural fuel
(`fuel > n` suffices for a correct rendering). -/
def digitsFuel : Nat → Nat → List Char
  | 0, _ => []
  | fuel + 1, n =>
    if n < 10 then [natDigitChar n]
    else digitsFuel fuel (n / 10) ++ [natDigitChar (n % 10)]

/-- Decimal rendering of a natural number, modelling Python f-string
interpolation of an integer. -/
def natToString (n : Nat) : String := String.mk (digitsFuel (n + 1) n)

/-- The `ErrorType` enum of `function_app.py`. -/
inductive ErrorType
  | transient
  | permanent
deriving DecidableEq, Repr

/-- The exception-kind distinctions `classify_error` makes via `isinstance`:
`httpx.TimeoutException`/`asyncio.TimeoutError`, the connection-error family
(`httpx.ConnectError`/`NetworkError`/`ConnectTimeout`), and everything else. -/
inductive ExcKind
  | timeoutExc
  | connectExc
  | genericExc
deriving DecidableEq, Repr

/-- A Python exception as `classify_error` observes it: its `isinstance`
kind and its `str(exception)` message. -/
structure PyException where
  kind : ExcKind
  message : String
deriving DecidableEq, Repr

/-- The `permanent_status_codes` set from `classify_error`. -/
def permanent_status_codes : List Nat := [400, 401, 403, 404, 405, 409, 422]

/-- The `permanent_keywords` list from `classify_error`. -/
def permanent_keywords : List String :=
  ["unauthorized", "forbidden", "authentication", "invalid token",
   "bad request", "malformed", "invalid data", "validation failed",
   "not found", "conflict", "duplicate", "already exists"]

/-- The keyword scan of `classify_error`: some permanent keyword occurs in
the lowercased exception message. -/
def messageHasPermanentKeyword (msg : String) : Bool :=
  permanent_keywords.any (fun kw => containsSub (lowerStr msg) kw)

/-- The `if status_code:` block of `classify_error`.  A `None` or `0`
status (both falsy in Python) skips the block; otherwise the three status
rules fire in order, and a status matching none of them falls through. -/
def statusClassification : Option Nat → Option ErrorType
  | Option.none => Option.none
  | Option.some s =>
    if s = 0 then Option.none
    else if 500 ≤ s ∧ s < 600 then Option.some ErrorType.transient
    else if s = 429 then Option.some ErrorType.transient
    else if s ∈ permanent_status_codes then Option.some ErrorType.permanent
    else Option.none

/-- The function `classify_error(exception, status_code)` from `function_app.py`:
timeout and connection kinds are transient; then the status-code block;
then the keyword scan; default transient. -/
def classify_error (exception : PyException) (status_code : Option Nat) :
    ErrorType :=
  if exception.kind = ExcKind.timeoutExc then ErrorType.transient
  else if exception.kind = ExcKind.connectExc then ErrorType.transient
  else
    match statusClassification status_code with
    | Option.some t => t
    | Option.none =>
      if messageHasPermanentKeyword exception.message then ErrorType.permanent
      else ErrorType.transient

/-- The `stamp` value of a transaction row as `payliance_debit_function`
sees it: a `datetime` (carried as its `isoformat()` rendering), a raw
string still to be parsed, or `NULL`. -/
inductive StampValue
  | dt (iso : String)
  | str (raw : String)
deriving DecidableEq, Repr

/-- One row of the `get_transaction_by_id` query of `database.py`, as the
Python dict the dispatcher consumes.  `transaction_id` is
`te.transaction_id` from the LEFT JOIN onto `bim_transaction_events`: the
settlement-event marker, `NULL` (`Option.none`) when no settlement event
exists.  This is a coarse two-state view in which `Option.none` stands
for a value that is SQL NULL or whose key is absent; it deliberately
conflates the two, which is adequate for the truthiness tests the
dispatcher performs on it, but NOT for the `.get`-default behaviour of
the payload build — the faithful three-state dict model for that is
`TransactionRow` below.  Amounts are modelled as rationals. -/
structure TransactionData where
  transaction_id : Option String
  serial_number : Option String
  stamp : Option StampValue
  total_amount : Option Rat
  consumer_id : Option String
  merchant_id : Option String
  terminal_id : Option String
  approval_code : Option String
  cdf1 : Option String
  cdf2 : Option String
  fname : Option String
  lname : Option String
  address1 : Option String
  address2 : Option String
  city : Option String
  state : Option String
  zip : Option String
  home_phone : Option String
  mobile_phone : Option String
  merchant_address : Option String
  merchant_city : Option String
  merchant_state : Option String
  ach_trans_type : Option String
  ach_statement_id : Option String
  settled_log_id : Option String
deriving DecidableEq, Repr

/-- A record with every optional field absent (and no settlement marker). -/
def emptyTransactionData : TransactionData :=
  { transaction_id := Option.none, serial_number := Option.none,
    stamp := Option.none, total_amount := Option.none,
    consumer_id := Option.none, merchant_id := Option.none,
    terminal_id := Option.none, approval_code := Option.none,
    cdf1 := Option.none, cdf2 := Option.none,
    fname := Option.none, lname := Option.none,
    address1 := Option.none, address2 := Option.none,
    city := Option.none, state := Option.none, zip := Option.none,
    home_phone := Option.none, mobile_phone := Option.none,
    merchant_address := Option.none, merchant_city := Option.none,
    merchant_state := Option.none, ach_trans_type := Option.none,
    ach_statement_id := Option.none, settled_log_id := Option.none }

/-- The stamp-normalisation preamble of the payload build: a string stamp
is parsed with `datetime.fromisoformat` (modelled by the oracle `fromIso`,
`Option.none` meaning `ValueError`), falling back to `datetime.now()`
(the `now` argument); a missing stamp is `now`; a `datetime` stamp is kept. -/
def resolveStamp (stamp : Option StampValue) (now : String)
    (fromIso : String → Option String) : String :=
  match stamp with
  | Option.some (StampValue.str raw) =>
    match fromIso raw with
    | Option.some t => t
    | Option.none => now
  | Option.some (StampValue.dt iso) => iso
  | Option.none => now

/-- The `transaction_payload` dict built by `payliance_debit_function`
(lines 464-497).  String-typed rendering of numeric columns
(`str(...)` on `terminal_id` and `approval_code`) is absorbed into the
`String`-valued record fields. -/
structure SettlementRequest where
  uniqueTranId : String
  routing : String
  accountNumber : String
  checkAmount : Rat
  secCode : String
  posTransactionDate : String
  posTerminalId : String
  posTransactionSerialNumber : String
  posAuthorizationCode : String
  lastName : String
  firstName : String
  address1 : String
  city : String
  state : String
  zip : String
  phone : String
  checkDate : String
  customDescriptor : String
  posCardTransactionTypeCode : String
  posTerminalLocationAddress : String
  posTerminalCity : String
  posTerminalState : String
  posReferenceInfo1 : String
  posReferenceInfo2 : String
  accountType : String
  address2 : String
  isSameDay : Bool
  futureDate : String
  microEntry : Bool
  convenienceFee : Bool
  convenienceFeeAmount : Rat
deriving DecidableEq, Repr

/-- The payload build of `payliance_debit_function` over the coarse
two-state record view: the `.get` defaults as literally written in the
source, the phone as `get('home_phone') or get('mobile_phone', '')`
(Python `or` takes the second operand when the first is `None` or `""`),
and both dates as the resolved stamp with a `"Z"` suffix.  Because rows
produced by `get_transaction_by_id` always contain every selected key,
on real rows these defaults never fire for NULL columns and
`float(None)` raises; that behaviour is captured faithfully by
`build_transaction_payload_py` below, while this coarse version is kept
only as the payload recorded by the dispatcher embedding, whose claims
never inspect payload field values. -/
def build_transaction_payload (transaction_id : String) (d : TransactionData)
    (now : String) (fromIso : String → Option String) : SettlementRequest :=
  let stamp := resolveStamp d.stamp now fromIso
  { uniqueTranId := transaction_id
    routing := "121000358"
    accountNumber := "5428610017522"
    checkAmount := d.total_amount.getD 0
    secCode := d.ach_trans_type.getD "POS"
    posTransactionDate := stamp ++ "Z"
    posTerminalId := d.terminal_id.getD ""
    posTransactionSerialNumber := d.serial_number.getD ""
    posAuthorizationCode := d.approval_code.getD ""
    lastName := d.lname.getD ""
    firstName := d.fname.getD ""
    address1 := d.address1.getD ""
    city := d.city.getD ""
    state := d.state.getD ""
    zip := d.zip.getD ""
    phone :=
      match d.home_phone with
      | Option.some p => if p != "" then p else d.mobile_phone.getD ""
      | Option.none => d.mobile_phone.getD ""
    checkDate := stamp ++ "Z"
    customDescriptor := d.ach_statement_id.getD ""
    posCardTransactionTypeCode := "01"
    posTerminalLocationAddress := d.merchant_address.getD ""
    posTerminalCity := d.merchant_city.getD ""
    posTerminalState := d.merchant_state.getD ""
    posReferenceInfo1 := d.consumer_id.getD ""
    posReferenceInfo2 := "00"
    accountType := "Personal Checking"
    address2 := d.address2.getD ""
    isSameDay := false
    futureDate := ""
    microEntry := false
    convenienceFee := false
    convenienceFeeAmount := 0 }

/-- A value slot of a Python dict: the key may be absent, present with
value `None` (how SQL NULL surfaces through `dict(zip(columns, row))`),
or present with a proper value. -/
inductive PyField (α : Type)
  | absent
  | null
  | val (a : α)
deriving DecidableEq, Repr

/-- Python `d.get(key)` with no default: absent and `None` both give
`None`. -/
def PyField.get {α : Type} : PyField α → Option α
  | PyField.absent => Option.none
  | PyField.null => Option.none
  | PyField.val a => Option.some a

/-- Python `d.get(key, default)`: the default fires only when the key is
absent; a key present with `None` yields `None`, not the default. -/
def PyField.getD {α : Type} : PyField α → α → Option α
  | PyField.absent, d => Option.some d
  | PyField.null, _ => Option.none
  | PyField.val a, _ => Option.some a

/-- Python `str(x)` on a maybe-`None` string value: `str(None)` is the
four-character string `"None"`. -/
def pyStr : Option String → String
  | Option.none => "None"
  | Option.some s => s

/-- The faithful model of one `get_transaction_by_id` row: every selected
column as a Python dict slot.  `dict(zip(columns, row))` always makes
every key present, so for rows actually returned by the query no field
is `PyField.absent` — a column can only be missing by being SQL NULL
(`PyField.null`). -/
structure TransactionRow where
  transaction_id : PyField String
  serial_number : PyField String
  stamp : PyField StampValue
  total_amount : PyField Rat
  consumer_id : PyField String
  merchant_id : PyField String
  terminal_id : PyField String
  approval_code : PyField String
  cdf1 : PyField String
  cdf2 : PyField String
  fname : PyField String
  lname : PyField String
  address1 : PyField String
  address2 : PyField String
  city : PyField String
  state : PyField String
  zip : PyField String
  home_phone : PyField String
  mobile_phone : PyField String
  merchant_address : PyField String
  merchant_city : PyField String
  merchant_state : PyField String
  ach_trans_type : PyField String
  ach_statement_id : PyField String
  settled_log_id : PyField String
deriving DecidableEq, Repr

/-- A row whose every column is present but SQL NULL. -/
def allNullRow : TransactionRow :=
  { transaction_id := PyField.null, serial_number := PyField.null,
    stamp := PyField.null, total_amount := PyField.null,
    consumer_id := PyField.null, merchant_id := PyField.null,
    terminal_id := PyField.null, approval_code := PyField.null,
    cdf1 := PyField.null, cdf2 := PyField.null,
    fname := PyField.null, lname := PyField.null,
    address1 := PyField.null, address2 := PyField.null,
    city := PyField.null, state := PyField.null, zip := PyField.null,
    home_phone := PyField.null, mobile_phone := PyField.null,
    merchant_address := PyField.null, merchant_city := PyField.null,
    merchant_state := PyField.null, ach_trans_type := PyField.null,
    ach_statement_id := PyField.null, settled_log_id := PyField.null }

/-- The all-NULL row with a present (zero) amount, so only the
`float(None)` failure is avoided. -/
def amountOnlyRow : TransactionRow :=
  { allNullRow with total_amount := PyField.val 0 }

/-- The `transaction_payload` dict under faithful dict semantics: fields
whose source expression is a bare `.get(..., '')` can be `None` (JSON
null) and are `Option String`; fields wrapped in `str(...)` become the
string `"None"` on NULL; constants stay constants. -/
structure SettlementRequestPy where
  uniqueTranId : String
  routing : String
  accountNumber : String
  checkAmount : Rat
  secCode : Option String
  posTransactionDate : String
  posTerminalId : String
  posTransactionSerialNumber : Option String
  posAuthorizationCode : String
  lastName : Option String
  firstName : Option String
  address1 : Option String
  city : Option String
  state : Option String
  zip : Option String
  phone : Option String
  checkDate : String
  customDescriptor : Option String
  posCardTransactionTypeCode : String
  posTerminalLocationAddress : Option String
  posTerminalCity : Option String
  posTerminalState : Option String
  posReferenceInfo1 : Option String
  posReferenceInfo2 : String
  accountType : String
  address2 : Option String
  isSameDay : Bool
  futureDate : String
  microEntry : Bool
  convenienceFee : Bool
  convenienceFeeAmount : Rat
deriving DecidableEq, Repr

/-- The payload entries other than `checkAmount`, all of which are pure
dict reads and cannot raise; `amount` is the already-converted
`float(...)` value. -/
def buildRowFields (transaction_id : String) (r : TransactionRow)
    (amount : Rat) (now : String) (fromIso : String → Option String) :
    SettlementRequestPy :=
  let stamp := resolveStamp (PyField.get r.stamp) now fromIso
  { uniqueTranId := transaction_id
    routing := "121000358"
    accountNumber := "5428610017522"
    checkAmount := amount
    secCode := PyField.getD r.ach_trans_type "POS"
    posTransactionDate := stamp ++ "Z"
    posTerminalId := pyStr (PyField.getD r.terminal_id "")
    posTransactionSerialNumber := PyField.getD r.serial_number ""
    posAuthorizationCode := pyStr (PyField.getD r.approval_code "")
    lastName := PyField.getD r.lname ""
    firstName := PyField.getD r.fname ""
    address1 := PyField.getD r.address1 ""
    city := PyField.getD r.city ""
    state := PyField.getD r.state ""
    zip := PyField.getD r.zip ""
    phone :=
      if pyTruthyStr (PyField.get r.home_phone) then PyField.get r.home_phone
      else PyField.getD r.mobile_phone ""
    checkDate := stamp ++ "Z"
    customDescriptor := PyField.getD r.ach_statement_id ""
    posCardTransactionTypeCode := "01"
    posTerminalLocationAddress := PyField.getD r.merchant_address ""
    posTerminalCity := PyField.getD r.merchant_city ""
    posTerminalState := PyField.getD r.merchant_state ""
    posReferenceInfo1 := PyField.getD r.consumer_id ""
    posReferenceInfo2 := "00"
    accountType := "Personal Checking"
    address2 := PyField.getD r.address2 ""
    isSameDay := false
    futureDate := ""
    microEntry := false
    convenienceFee := false
    convenienceFeeAmount := 0 }

/-- The payload build of `payliance_debit_function` under faithful dict
semantics: `float(transaction_data.get('total_amount', 0))` raises
`TypeError` (modelled as `Option.none`) when `total_amount` is present
but NULL, since the `.get` default fires only for an absent key; all
other entries are pure dict reads.  (In the source the raise happens
while the dict literal is being constructed; as every entry expression
is pure, hoisting the one fallible conversion preserves the result.) -/
def build_transaction_payload_py (transaction_id : String)
    (r : TransactionRow) (now : String)
    (fromIso : String → Option String) : Option SettlementRequestPy :=
  match PyField.getD r.total_amount 0 with
  | Option.none => Option.none
  | Option.some amount =>
    Option.some (buildRowFields transaction_id r amount now fromIso)

/-- Result of `json.loads(response.text)` on the gateway reply:
either a dict view of the two fields the dispatcher reads
(`ValidationCode`, `AuthorizationId`, each possibly absent/null),
or a `json.JSONDecodeError`. -/
inductive ResponseBody
  | parsed (validationCode : Option Int) (authorizationId : Option String)
  | invalid
deriving DecidableEq, Repr

/-- Outcome of the single `client.post` to the Payliance gateway:
a received response (status, parsed-body view, raw text), or one of the
exception families the surrounding handlers distinguish. -/
inductive GatewayResult
  | response (statusCode : Nat) (body : ResponseBody) (text : String)
  | timeoutFailure
  | networkFailure
  | requestFailure (msg : String)
deriving DecidableEq, Repr

/-- The environment and oracle inputs of one `payliance_debit_function`
invocation: the extracted `transaction_id` (the falsy `""` models a
missing/empty id), configuration presence flags, database availability,
the `get_transaction_by_id` result (`Option.none` covers both
row-not-found and a swallowed lookup error, in which case the Python
variable stays `None`), the gateway call outcome, and the
`insert_transaction_event` result (`Option.none` models the insert
raising, `Option.some b` the returned boolean). -/
structure DispatchInput where
  transaction_id : String
  authTokenConfigured : Bool
  baseUrlConfigured : Bool
  dbPoolAvailable : Bool
  lookup : Option TransactionData
  gateway : GatewayResult
  insertResult : Option Bool
deriving DecidableEq, Repr

/-- The observable pieces of the `func.HttpResponse` the dispatcher
returns: the JSON body fields `success`, `error` and `error_type`
(absent fields are `Option.none`), and the HTTP status code. -/
structure HttpResponseModel where
  success : Bool
  error : Option String
  errorType : Option ErrorType
  statusCode : Nat
deriving DecidableEq, Repr

/-- Full observable behaviour of one dispatch: the HTTP response, whether
the gateway was called (and with which payload), whether an
`insert_transaction_event` was attempted, and whether it reported a
successful insert. -/
structure DispatchResult where
  httpResponse : HttpResponseModel
  gatewayCalled : Bool
  sentPayload : Option SettlementRequest
  insertAttempted : Bool
  eventInserted : Bool
deriving DecidableEq, Repr

/-- The `str(e)` rendering of the `AttributeError` raised by
`transaction_data.get(...)` when `transaction_data` is `None`. -/
def noneTypeGetMessage : String :=
  "\x27NoneType\x27 object has no attribute \x27get\x27"

/-- The gateway-call section of `payliance_debit_function` (lines
499-696), entered once the idempotency guard has passed: build the
payload, post it, and translate the response or exception into the HTTP
reply, exactly mirroring the handler chain of the source. -/
def dispatchGatewayCall (inp : DispatchInput) (d : TransactionData)
    (now : String) (fromIso : String → Option String) : DispatchResult :=
  let payload := build_transaction_payload inp.transaction_id d now fromIso
  match inp.gateway with
  | GatewayResult.timeoutFailure =>
    { httpResponse :=
        { success := false,
          error := Option.some
            "Request timeout - Payliance API did not respond within 30 seconds",
          errorType := Option.some ErrorType.transient, statusCode := 408 },
      gatewayCalled := true, sentPayload := Option.some payload,
      insertAttempted := false, eventInserted := false }
  | GatewayResult.networkFailure =>
    { httpResponse :=
        { success := false,
          error := Option.some "Network error connecting to Payliance API",
          errorType := Option.some ErrorType.transient, statusCode := 503 },
      gatewayCalled := true, sentPayload := Option.some payload,
      insertAttempted := false, eventInserted := false }
  | GatewayResult.requestFailure msg =>
    let et := classify_error
      { kind := ExcKind.genericExc, message := msg } Option.none
    { httpResponse :=
        { success := false,
          error := Option.some ("Failed to call Payliance API: " ++ msg),
          errorType := Option.some et,
          statusCode := if et = ErrorType.transient then 500 else 400 },
      gatewayCalled := true, sentPayload := Option.some payload,
      insertAttempted := false, eventInserted := false }
  | GatewayResult.response s body text =>
    if s = 200 then
      let attempted :=
        match body with
        | ResponseBody.parsed vc auth =>
          if vc != Option.some 1 then false
          else pyTruthyStr auth && inp.dbPoolAvailable
        | ResponseBody.invalid => false
      { httpResponse :=
          { success := true, error := Option.none,
            errorType := Option.none, statusCode := 200 },
        gatewayCalled := true, sentPayload := Option.some payload,
        insertAttempted := attempted,
        eventInserted := attempted && (inp.insertResult == Option.some true) }
    else
      let et := classify_error
        { kind := ExcKind.genericExc, message := "HTTP " ++ natToString s }
        (Option.some s)
      { httpResponse :=
          { success := false,
            error := Option.some ("API ERROR: Transaction " ++
              inp.transaction_id ++ " failed with status " ++ natToString s ++
              ": " ++ text),
            errorType := Option.some et,
            statusCode :=
              if s ≠ 0 then s
              else if et = ErrorType.permanent then 400 else 500 },
        gatewayCalled := true, sentPayload := Option.some payload,
        insertAttempted := false, eventInserted := false }

/-- The function `payliance_debit_function` (the `/api/debit` HTTP trigger): the body
and configuration gates, then the idempotency guard over the looked-up
row (a truthy `te.transaction_id` marker short-circuits with the
"Transaction already sent to Payliance" 200 reply), then the gateway
call.  When the looked-up row is `None`, the Python code falls through to
`transaction_data.get(...)` on `None`, whose `AttributeError` lands in
the final generic handler (classified, then 500/400). -/
def payliance_debit_function (inp : DispatchInput) (now : String)
    (fromIso : String → Option String) : DispatchResult :=
  if inp.transaction_id = "" then
    { httpResponse :=
        { success := false, error := Option.some "transaction_id is required",
          errorType := Option.none, statusCode := 400 },
      gatewayCalled := false, sentPayload := Option.none,
      insertAttempted := false, eventInserted := false }
  else if inp.authTokenConfigured = false then
    { httpResponse :=
        { success := false,
          error := Option.some "PAYLIANCE_AUTH_TOKEN not configured",
          errorType := Option.none, statusCode := 500 },
      gatewayCalled := false, sentPayload := Option.none,
      insertAttempted := false, eventInserted := false }
  else if inp.baseUrlConfigured = false then
    { httpResponse :=
        { success := false,
          error := Option.some "PAYLIANCE_BASE_URL not configured",
          errorType := Option.none, statusCode := 500 },
      gatewayCalled := false, sentPayload := Option.none,
      insertAttempted := false, eventInserted := false }
  else
    match (if inp.dbPoolAvailable then inp.lookup else Option.none) with
    | Option.none =>
      let et := classify_error
        { kind := ExcKind.genericExc, message := noneTypeGetMessage }
        Option.none
      { httpResponse :=
          { success := false,
            error := Option.some ("Unexpected error: " ++ noneTypeGetMessage),
            errorType := Option.some et,
            statusCode := if et = ErrorType.transient then 500 else 400 },
        gatewayCalled := false, sentPayload := Option.none,
        insertAttempted := false, eventInserted := false }
    | Option.some d =>
      if pyTruthyStr d.transaction_id then
        { httpResponse :=
            { success := false,
              error := Option.some "Transaction already sent to Payliance",
              errorType := Option.none, statusCode := 200 },
          gatewayCalled := false, sentPayload := Option.none,
          insertAttempted := false, eventInserted := false }
      else
        dispatchGatewayCall inp d now fromIso

/-- The dict returned by `call_debit_endpoint_with_error_handling`. -/
structure CallResult where
  success : Bool
  error_type : Option ErrorType
  error_message : Option String
deriving DecidableEq, Repr

/-- The `response.json()` view inside
`call_debit_endpoint_with_error_handling`: the truthiness of the
`success` field together with the Python `str(response_data)` rendering
(which the source interpolates into the error message fed to
`classify_error`), or a `json.JSONDecodeError`. -/
inductive InnerBody
  | parsed (success : Bool) (reprText : String)
  | invalid
deriving DecidableEq, Repr

/-- Outcome of the internal `client.post` to `/api/debit` made by
`call_debit_endpoint_with_error_handling`. -/
inductive InnerCallResult
  | response (statusCode : Nat) (body : InnerBody) (text : String)
  | timeoutFailure
  | networkFailure
  | requestFailure (msg : String)
  | unexpectedFailure (msg : String)
deriving DecidableEq, Repr

/-- The helper `call_debit_endpoint_with_error_handling` from `function_app.py`:
a 200 with a truthy `success` field (or an unparseable 200 body) is
success; a 200 with falsy `success` and any non-200 status are failures
classified by `classify_error`; the exception handlers return transient
(timeout, network) or a classified failure. -/
def call_debit_endpoint_with_error_handling (transaction_id : String)
    (r : InnerCallResult) : CallResult :=
  match r with
  | InnerCallResult.response s body text =>
    if s = 200 then
      match body with
      | InnerBody.parsed ok reprText =>
        if ok then
          { success := true, error_type := Option.none,
            error_message := Option.none }
        else
          let msg := "Debit endpoint returned success=false: " ++ reprText
          { success := false,
            error_type := Option.some (classify_error
              { kind := ExcKind.genericExc, message := msg } (Option.some s)),
            error_message := Option.some msg }
      | InnerBody.invalid =>
        { success := true, error_type := Option.none,
          error_message := Option.none }
    else
      let msg := "Debit endpoint call failed with status " ++ natToString s ++
        ": " ++ text
      { success := false,
        error_type := Option.some (classify_error
          { kind := ExcKind.genericExc, message := msg } (Option.some s)),
        error_message := Option.some msg }
  | InnerCallResult.timeoutFailure =>
    { success := false, error_type := Option.some ErrorType.transient,
      error_message := Option.some ("Timeout calling debit endpoint for transaction "
        ++ transaction_id) }
  | InnerCallResult.networkFailure =>
    { success := false, error_type := Option.some ErrorType.transient,
      error_message := Option.some ("Network error calling debit endpoint for transaction "
        ++ transaction_id) }
  | InnerCallResult.requestFailure msg =>
    { success := false,
      error_type := Option.some (classify_error
        { kind := ExcKind.genericExc, message := msg } Option.none),
      error_message := Option.some msg }
  | InnerCallResult.unexpectedFailure msg =>
    { success := false,
      error_type := Option.some (classify_error
        { kind := ExcKind.genericExc, message := msg } Option.none),
      error_message := Option.some msg }

/-- The transport-facing decision of the queue trigger: returning
normally acknowledges the message; raising requests redelivery. -/
inductive MessageDecision
  | acknowledge
  | requestRetry
deriving DecidableEq, Repr

/-- An inbound Service Bus message body after `json.loads`: either a
`JSONDecodeError`, or a parsed object with its (possibly absent/falsy)
`transaction_id` field. -/
inductive QueueMessage
  | invalidJson (raw : String)
  | parsed (transaction_id : Option String)
deriving DecidableEq, Repr

/-- The queue trigger's observable behaviour: the ack/retry decision and
whether a dispatch (the internal `/api/debit` call) was attempted at all. -/
structure ProcessorResult where
  decision : MessageDecision
  dispatchAttempted : Bool
deriving DecidableEq, Repr

/-- The trigger `service_bus_debit_processor` from `function_app.py`: unparseable
JSON and a missing/falsy `transaction_id` return without dispatching
(acknowledge); otherwise the internal call is made and a failure is
acknowledged when permanent and re-raised (so redelivered) when
transient — the transient `DebitError` raised inside the `try` is caught
by the `except DebitError` handler, which re-raises it. -/
def service_bus_debit_processor (m : QueueMessage) (inner : InnerCallResult) :
    ProcessorResult :=
  match m with
  | QueueMessage.invalidJson _ =>
    { decision := MessageDecision.acknowledge, dispatchAttempted := false }
  | QueueMessage.parsed tid =>
    if pyTruthyStr tid = false then
      { decision := MessageDecision.acknowledge, dispatchAttempted := false }
    else
      let result := call_debit_endpoint_with_error_handling (tid.getD "") inner
      if result.success then
        { decision := MessageDecision.acknowledge, dispatchAttempted := true }
      else
        match result.error_type.getD ErrorType.transient with
        | ErrorType.permanent =>
          { decision := MessageDecision.acknowledge, dispatchAttempted := true }
        | ErrorType.transient =>
          { decision := MessageDecision.requestRetry, dispatchAttempted := true }

/-- Python `str()` rendering of the parsed body of the
"Transaction already sent to Payliance" reply of the debit endpoint,
as interpolated into the error message that
`call_debit_endpoint_with_error_handling` feeds to `classify_error`. -/
def pyDictReprAlreadySent (request_id : String) : String :=
  "\x7b\x27success\x27: False, \x27error\x27: \x27Transaction already sent to Payliance\x27, \x27request_id\x27: \x27"
    ++ request_id ++ "\x27\x7d"

/-- A baseline dispatch input: configured environment, database
available, a fresh (unsettled) record, and a fully successful gateway
reply. -/
def baseDispatchInput : DispatchInput :=
  { transaction_id := "T1", authTokenConfigured := true,
    baseUrlConfigured := true, dbPoolAvailable := true,
    lookup := Option.some emptyTransactionData,
    gateway := GatewayResult.response 200
      (ResponseBody.parsed (Option.some 1) (Option.some "A1")) "",
    insertResult := Option.some true }

/-- The hypotheses under which `payliance_debit_function` reaches the
gateway call: a truthy transaction id, configured environment, an
available pool, and a looked-up row without a settlement marker. -/
def ReachesGateway (inp : DispatchInput) (d : TransactionData) : Prop :=
  inp.transaction_id ≠ "" ∧ inp.authTokenConfigured = true ∧
  inp.baseUrlConfigured = true ∧ inp.dbPoolAvailable = true ∧
  inp.lookup = Option.some d ∧ pyTruthyStr d.transaction_id = false

/-- A fixed "current time" for concrete evaluations. -/
def now0 : String := "2024-01-01T00:00:00"

/-- A `fromisoformat` oracle that always reports `ValueError`. -/
def noIso : String → Option String := fun _ => Option.none

/-- A record that already carries a settlement-event marker. -/
def settledTransactionData : TransactionData :=
  { emptyTransactionData with transaction_id := Option.some "T1" }

/-- Input whose gateway reply is 200 with `ValidationCode = 0` and no
`AuthorizationId`: a gateway-level business rejection. -/
def rejectedValidationInput : DispatchInput :=
  { baseDispatchInput with
      gateway := GatewayResult.response 200
        (ResponseBody.parsed (Option.some 0) Option.none) "" }

/-- Input whose gateway reply is 200 with `ValidationCode = 2` and a
present `AuthorizationId`. -/
def rejectedValidation2Input : DispatchInput :=
  { baseDispatchInput with
      gateway := GatewayResult.response 200
        (ResponseBody.parsed (Option.some 2) (Option.some "A1")) "" }

/-- Input whose record already carries a settlement-event marker. -/
def settledInput : DispatchInput :=
  { baseDispatchInput with lookup := Option.some settledTransactionData }

/-- Input whose settlement-event insert reports failure. -/
def insertFailedInput : DispatchInput :=
  { baseDispatchInput with insertResult := Option.some false }

/-- Input whose gateway reply is 200 with an unparseable body. -/
def invalidBodyInput : DispatchInput :=
  { baseDispatchInput with gateway :=
      GatewayResult.response 200 ResponseBody.invalid "<html>" }

/-- Input whose gateway reply is HTTP 429 (Too Many Requests). -/
def status429Input : DispatchInput :=
  { baseDispatchInput with gateway :=
      GatewayResult.response 429 ResponseBody.invalid "" }

/-- Input whose gateway call times out. -/
def timeoutInput : DispatchInput :=
  { baseDispatchInput with gateway := GatewayResult.timeoutFailure }

/-- The HTTP reply of a dispatch that reported success. -/
def success200Response : HttpResponseModel :=
  { success := true, error := Option.none, errorType := Option.none,
    statusCode := 200 }

/-- The fixed HTTP reply of the idempotency short-circuit. -/
def alreadySentResponse : HttpResponseModel :=
  { success := false,
    error := Option.some "Transaction already sent to Payliance",
    errorType := Option.none,
    statusCode := 200 }

/-- The full dispatch outcome of the idempotency short-circuit: the fixed
reply, no gateway call, no payload sent, no insert. -/
def alreadySentResult : DispatchResult :=
  { httpResponse := alreadySentResponse,
    gatewayCalled := false,
    sentPayload := Option.none,
    insertAttempted := false,
    eventInserted := false }

/-- The success dict of `call_debit_endpoint_with_error_handling`. -/
def callSuccessResult : CallResult :=
  { success := true, error_type := Option.none, error_message := Option.none }

/-- The processor outcome acknowledging without any dispatch attempt. -/
def ackNoDispatch : ProcessorResult :=
  { decision := MessageDecision.acknowledge, dispatchAttempted := false }
lemma infixSearch_false_of_head (c0 : Char) (ns hay : List Char)
    (hmem : c0 ∉ hay) : infixSearch (c0 :: ns) hay = false := by
  induction hay with
  | nil => rfl
  | cons a rest ih =>
    simp only [infixSearch, Bool.or_eq_false_iff]
    have hne : (c0 == a) = false := by
      simp only [beq_eq_false_iff_ne]
      intro hco
      exact hmem (hco ▸ List.mem_cons_self a rest)
    refine ⟨?_, ih (fun hmm => hmem (List.mem_cons_of_mem a hmm))⟩
    simp [List.isPrefixOf, hne]

lemma containsSub_false_of_head (hay needle : String) (c0 : Char)
    (hh : needle.toList.head? = Option.some c0) (hmem : c0 ∉ hay.toList) :
    containsSub hay needle = false := by
  obtain ⟨ns, hns⟩ : ∃ ns, needle.toList = c0 :: ns := by
    cases hlist : needle.toList with
    | nil => rw [hlist] at hh; cases hh
    | cons a as =>
      rw [hlist] at hh
      simp only [List.head?_cons, Option.some.injEq] at hh
      exact ⟨as, by rw [hh]⟩
  unfold containsSub
  rw [hns]
  exact infixSearch_false_of_head c0 ns _ hmem

lemma digitsFuel_mem_bound (fuel : Nat) : ∀ n c, c ∈ digitsFuel fuel n →
    48 ≤ c.toNat ∧ c.toNat ≤ 57 := by
  induction fuel with
  | zero => intro n c hc; simp [digitsFuel] at hc
  | succ f ih =>
    intro n c hc
    by_cases h10 : n < 10
    · simp only [digitsFuel, if_pos h10, List.mem_singleton] at hc
      subst hc
      interval_cases n <;> decide
    · simp only [digitsFuel, if_neg h10, List.mem_append, List.mem_singleton] at hc
      rcases hc with hc | hc
      · exact ih _ _ hc
      · subst hc
        have hr : n % 10 < 10 := Nat.mod_lt _ (by norm_num)
        set r := n % 10 with hrdef
        interval_cases r <;> decide

lemma httpMsg_char_bound (s : Nat) :
    ∀ c ∈ (lowerStr ("HTTP " ++ natToString s)).toList,
      c = 'h' ∨ c = 't' ∨ c = 'p' ∨ c = ' ' ∨ (48 ≤ c.toNat ∧ c.toNat ≤ 57) := by
  intro c hc
  have hsplit : (lowerStr ("HTTP " ++ natToString s)).toList
      = ['h', 't', 't', 'p', ' '] ++ (digitsFuel (s + 1) s).map lowerChar := by
    show (("HTTP " ++ natToString s).toList.map lowerChar)
        = ['h', 't', 't', 'p', ' '] ++ (digitsFuel (s + 1) s).map lowerChar
    have hdata : ("HTTP " ++ natToString s).toList
        = "HTTP ".toList ++ digitsFuel (s + 1) s := rfl
    rw [hdata, List.map_append]
    rfl
  rw [hsplit] at hc
  rcases List.mem_append.mp hc with hc | hc
  · simp only [List.mem_cons, List.not_mem_nil, or_false] at hc
    tauto
  · rcases List.mem_map.mp hc with ⟨d, hd, rfl⟩
    have hb := digitsFuel_mem_bound (s + 1) s d hd
    have hlow : lowerChar d = d := by
      unfold lowerChar
      rw [if_neg (by omega)]
    rw [hlow]
    exact Or.inr (Or.inr (Or.inr (Or.inr hb)))

lemma httpMsg_no_keyword (s : Nat) :
    messageHasPermanentKeyword ("HTTP " ++ natToString s) = false := by
  have hb := httpMsg_char_bound s
  simp only [messageHasPermanentKeyword, permanent_keywords, List.any_cons,
    List.any_nil, Bool.or_eq_false_iff]
  refine ⟨?_, ?_, ?_, ?_, ?_, ?_, ?_, ?_, ?_, ?_, ?_, ?_, trivial⟩
  · exact containsSub_false_of_head _ _ 'u' rfl (fun hm => absurd (hb _ hm) (by decide))
  · exact containsSub_false_of_head _ _ 'f' rfl (fun hm => absurd (hb _ hm) (by decide))
  · exact containsSub_false_of_head _ _ 'a' rfl (fun hm => absurd (hb _ hm) (by decide))
  · exact containsSub_false_of_head _ _ 'i' rfl (fun hm => absurd (hb _ hm) (by decide))
  · exact containsSub_false_of_head _ _ 'b' rfl (fun hm => absurd (hb _ hm) (by decide))
  · exact containsSub_false_of_head _ _ 'm' rfl (fun hm => absurd (hb _ hm) (by decide))
  · exact containsSub_false_of_head _ _ 'i' rfl (fun hm => absurd (hb _ hm) (by decide))
  · exact containsSub_false_of_head _ _ 'v' rfl (fun hm => absurd (hb _ hm) (by decide))
  · exact containsSub_false_of_head _ _ 'n' rfl (fun hm => absurd (hb _ hm) (by decide))
  · exact containsSub_false_of_head _ _ 'c' rfl (fun hm => absurd (hb _ hm) (by decide))
  · exact containsSub_false_of_head _ _ 'd' rfl (fun hm => absurd (hb _ hm) (by decide))
  · exact containsSub_false_of_head _ _ 'a' rfl (fun hm => absurd (hb _ hm) (by decide))

lemma statusClassification_transient (s : Nat)
    (h : (500 ≤ s ∧ s < 600) ∨ s = 429) :
    statusClassification (Option.some s) = Option.some ErrorType.transient := by
  rcases h with ⟨h1, h2⟩ | rfl
  · simp only [statusClassification]
    rw [if_neg (by omega), if_pos ⟨h1, h2⟩]
  · rfl

lemma statusClassification_permanent (s : Nat) (h : s ∈ permanent_status_codes) :
    statusClassification (Option.some s) = Option.some ErrorType.permanent := by
  simp only [permanent_status_codes] at h
  fin_cases h <;> rfl

lemma classify_genericExc_status (msg : String) (s : Nat) (t : ErrorType)
    (h : statusClassification (Option.some s) = Option.some t) :
    classify_error { kind := ExcKind.genericExc, message := msg }
      (Option.some s) = t := by
  simp [classify_error, h]

/-- Claim C4 (confirmed): every 5xx status and 429 classify as transient,
and every status in the permanent set classifies as permanent, for a
failure with no transport exception (message arbitrary). -/
theorem c4_status_classification (s : Nat) (msg : String) :
    (((500 ≤ s ∧ s < 600) ∨ s = 429) →
      classify_error { kind := ExcKind.genericExc, message := msg }
        (Option.some s) = ErrorType.transient)
  ∧ (s ∈ permanent_status_codes →
      classify_error { kind := ExcKind.genericExc, message := msg }
        (Option.some s) = ErrorType.permanent) := by
  constructor
  · intro h
    exact classify_genericExc_status msg s _ (statusClassification_transient s h)
  · intro h
    exact classify_genericExc_status msg s _ (statusClassification_permanent s h)

/-- Claim C4 witness: concrete instances 503 → transient and 404 → permanent. -/
theorem c4_status_classification_witness :
    classify_error { kind := ExcKind.genericExc, message := "boom" }
      (Option.some 503) = ErrorType.transient
  ∧ classify_error { kind := ExcKind.genericExc, message := "boom" }
      (Option.some 404) = ErrorType.permanent :=
  ⟨(c4_status_classification 503 "boom").1 (Or.inl (by decide)),
   (c4_status_classification 404 "boom").2 (by decide)⟩

/-- Claim C6 (confirmed): the status rule precedes the keyword rule — a
5xx or 429 status classifies transient even when the message contains a
permanent keyword. -/
theorem c6_status_rule_precedes_keyword_rule (s : Nat) (msg : String)
    (hs : (500 ≤ s ∧ s < 600) ∨ s = 429)
    (_hkw : messageHasPermanentKeyword msg = true) :
    classify_error { kind := ExcKind.genericExc, message := msg }
      (Option.some s) = ErrorType.transient :=
  classify_genericExc_status msg s _ (statusClassification_transient s hs)

/-- Claim C6 witness: a 503 with a message containing the permanent
keywords "duplicate" and "unauthorized" still classifies transient. -/
theorem c6_status_rule_precedes_keyword_rule_witness :
    classify_error { kind := ExcKind.genericExc, message := "duplicate unauthorized" } (Option.some 503) = ErrorType.transient :=
  c6_status_rule_precedes_keyword_rule 503 "duplicate unauthorized"
    (Or.inl (by decide)) (by rfl)

/-- Claim C5 counterexample: under faithful dict semantics every
selected key is present in the row, so the `.get` defaults never fire
for NULL columns.  On the all-NULL row the build raises (`float(None)`,
modelled as `Option.none`) — refuting totality — and with only the
amount present it returns a request whose `secCode` is `None` (not
`"POS"`) and whose `phone` is `None` (not `""`), with `str(None)`
surfacing as the string `"None"` in the terminal id and approval code. -/
theorem c5_counterexample_null_fields :
    build_transaction_payload_py "T1" allNullRow now0 noIso = Option.none
  ∧ build_transaction_payload_py "T1" amountOnlyRow now0 noIso =
      Option.some
        { uniqueTranId := "T1",
          routing := "121000358",
          accountNumber := "5428610017522",
          checkAmount := 0,
          secCode := Option.none,
          posTransactionDate := "2024-01-01T00:00:00Z",
          posTerminalId := "None",
          posTransactionSerialNumber := Option.none,
          posAuthorizationCode := "None",
          lastName := Option.none,
          firstName := Option.none,
          address1 := Option.none,
          city := Option.none,
          state := Option.none,
          zip := Option.none,
          phone := Option.none,
          checkDate := "2024-01-01T00:00:00Z",
          customDescriptor := Option.none,
          posCardTransactionTypeCode := "01",
          posTerminalLocationAddress := Option.none,
          posTerminalCity := Option.none,
          posTerminalState := Option.none,
          posReferenceInfo1 := Option.none,
          posReferenceInfo2 := "00",
          accountType := "Personal Checking",
          address2 := Option.none,
          isSameDay := false,
          futureDate := "",
          microEntry := false,
          convenienceFee := false,
          convenienceFeeAmount := 0 } := by
  refine ⟨?_, ?_⟩ <;> rfl

/-- Claim C5 (amended): rows from `get_transaction_by_id` carry every
selected key, so a field is only ever missing by being SQL NULL, where
the `.get` defaults do not apply.  The build raises on a NULL
`total_amount`; otherwise it returns a request whose `uniqueTranId`
equals the requested transaction id, whose `accountType` is
`"Personal Checking"`, whose `secCode` is the ACH transaction type when
present and `None` (not `"POS"`) when NULL, and whose `phone` is the
primary phone when truthy, else the secondary phone's value — `None`
(not the empty string) when the secondary is NULL. -/
theorem c5_null_fields_no_defaults (tid now : String)
    (fromIso : String → Option String) (r : TransactionRow) :
    (r.total_amount = PyField.null →
      build_transaction_payload_py tid r now fromIso = Option.none)
  ∧ (∀ x, r.total_amount = PyField.val x →
      ∃ req, build_transaction_payload_py tid r now fromIso = Option.some req
        ∧ req.uniqueTranId = tid
        ∧ req.accountType = "Personal Checking"
        ∧ req.checkAmount = x
        ∧ (r.ach_trans_type = PyField.null → req.secCode = Option.none)
        ∧ (∀ v, r.ach_trans_type = PyField.val v →
            req.secCode = Option.some v)
        ∧ (∀ p, r.home_phone = PyField.val p → p ≠ "" →
            req.phone = Option.some p)
        ∧ ((r.home_phone = PyField.null ∨ r.home_phone = PyField.val "") →
            (r.mobile_phone = PyField.null → req.phone = Option.none)
            ∧ (∀ q, r.mobile_phone = PyField.val q →
                req.phone = Option.some q))) := by
  constructor
  · intro h
    simp [build_transaction_payload_py, PyField.getD, h]
  · intro x hx
    refine ⟨buildRowFields tid r x now fromIso, ?_, rfl, rfl, rfl, ?_, ?_,
      ?_, ?_⟩
    · simp [build_transaction_payload_py, PyField.getD, hx]
    · intro h
      simp [buildRowFields, PyField.getD, h]
    · intro v h
      simp [buildRowFields, PyField.getD, h]
    · intro p hp hne
      simp [buildRowFields, pyTruthyStr, PyField.get, hp, hne]
    · rintro (h | h) <;>
        exact ⟨fun hm => by
            simp [buildRowFields, pyTruthyStr, PyField.get, PyField.getD,
              h, hm],
          fun q hq => by
            simp [buildRowFields, pyTruthyStr, PyField.get, PyField.getD,
              h, hq]⟩

/-- Claim C5 witness: the amended theorem at concrete rows — the
all-NULL row raises, and the amount-only row yields `secCode = None` and
`phone = None`. -/
theorem c5_null_fields_no_defaults_witness :
    build_transaction_payload_py "T1" allNullRow now0 noIso = Option.none
  ∧ ∃ req, build_transaction_payload_py "T1" amountOnlyRow now0 noIso
      = Option.some req
      ∧ req.secCode = Option.none ∧ req.phone = Option.none := by
  refine ⟨(c5_null_fields_no_defaults "T1" now0 noIso allNullRow).1 (by rfl),
    ?_⟩
  obtain ⟨req, hq, _, _, _, hsec, _, _, hph⟩ :=
    (c5_null_fields_no_defaults "T1" now0 noIso amountOnlyRow).2 0 (by rfl)
  exact ⟨req, hq, hsec (by rfl), (hph (Or.inl (by rfl))).1 (by rfl)⟩

/-- Claim C7 (confirmed): an unparseable message body, or a parsed body
with a missing or falsy `transaction_id`, is acknowledged with no
dispatch attempt (in particular no record lookup and no gateway call,
which only happen inside the dispatch). -/
theorem c7_malformed_message_acknowledged (raw : String)
    (tidOpt : Option String) (inner : InnerCallResult) :
    service_bus_debit_processor (QueueMessage.invalidJson raw) inner =
      ackNoDispatch
  ∧ (pyTruthyStr tidOpt = false →
      service_bus_debit_processor (QueueMessage.parsed tidOpt) inner =
        ackNoDispatch) := by
  refine ⟨rfl, fun h => ?_⟩
  simp [service_bus_debit_processor, ackNoDispatch, h]

/-- Claim C7 witness: concrete malformed bodies are acknowledged without
dispatch. -/
theorem c7_malformed_message_acknowledged_witness :
    service_bus_debit_processor (QueueMessage.invalidJson "\x7bnot json")
        InnerCallResult.timeoutFailure = ackNoDispatch
  ∧ service_bus_debit_processor (QueueMessage.parsed Option.none)
        InnerCallResult.timeoutFailure = ackNoDispatch :=
  ⟨(c7_malformed_message_acknowledged "\x7bnot json" Option.none
      InnerCallResult.timeoutFailure).1,
   (c7_malformed_message_acknowledged "\x7bnot json" Option.none
      InnerCallResult.timeoutFailure).2 (by rfl)⟩

/-- Claim C1 counterexample: with a fresh record and a gateway reply of
status 200 carrying `ValidationCode = 0` and no `AuthorizationId`, the
dispatcher does NOT terminate with a permanent failure: it reports
success (HTTP 200, `success = true`) and attempts no settlement-event
insert — refuting the claimed `Failed(Permanent)` termination. -/
theorem c1_counterexample_success_despite_rejection :
    (payliance_debit_function rejectedValidationInput now0 noIso).httpResponse.success = true
  ∧ (payliance_debit_function rejectedValidationInput now0 noIso).httpResponse.errorType = Option.none
  ∧ (payliance_debit_function rejectedValidationInput now0 noIso).insertAttempted = false := by
  refine ⟨?_, ?_, ?_⟩ <;> rfl

/-- Claim C1 (amended): on a 200 reply whose `ValidationCode` is not 1 or
whose `AuthorizationId` is missing/falsy, the dispatcher logs only — it
persists no settlement event, but still reports success (HTTP 200 with
`success = true`) rather than a permanent failure. -/
theorem c1_rejected_validation_reports_success (inp : DispatchInput)
    (d : TransactionData) (now : String) (fromIso : String → Option String)
    (vc : Option Int) (auth : Option String) (text : String)
    (hr : ReachesGateway inp d)
    (hgw : inp.gateway = GatewayResult.response 200
      (ResponseBody.parsed vc auth) text)
    (hrej : vc ≠ Option.some 1 ∨ pyTruthyStr auth = false) :
    (payliance_debit_function inp now fromIso).httpResponse = success200Response
  ∧ (payliance_debit_function inp now fromIso).insertAttempted = false
  ∧ (payliance_debit_function inp now fromIso).eventInserted = false := by
  obtain ⟨h1, h2, h3, h4, h5, h6⟩ := hr
  rcases hrej with hvc | hauth
  · have hb : (vc != Option.some 1) = true := by simpa using hvc
    simp [payliance_debit_function, dispatchGatewayCall, success200Response,
      h1, h2, h3, h4, h5, h6, hgw, hb]
  · by_cases hb : (vc != Option.some 1) = true <;>
      simp [payliance_debit_function, dispatchGatewayCall, success200Response,
        h1, h2, h3, h4, h5, h6, hgw, hb, hauth]

/-- Claim C1 witness: the amended theorem at a concrete input (200 reply
with `ValidationCode = 2` and a present `AuthorizationId`). -/
theorem c1_rejected_validation_reports_success_witness :
    (payliance_debit_function rejectedValidation2Input now0 noIso).httpResponse
      = success200Response :=
  (c1_rejected_validation_reports_success rejectedValidation2Input
    emptyTransactionData now0 noIso (Option.some 2) (Option.some "A1") ""
    ⟨by decide, by rfl, by rfl, by rfl, by rfl, by rfl⟩ (by rfl)
    (Or.inl (by decide))).1

/-- Claim C3 (confirmed): when the looked-up record carries a truthy
settlement-event marker, the dispatcher short-circuits: no gateway call,
no payload sent, no insert, and the fixed
"Transaction already sent to Payliance" 200 reply.  As the function is a
pure map of its input, this holds identically on every redelivery of the
same transaction id against the settled record. -/
theorem c3_already_settled_short_circuit (inp : DispatchInput)
    (d : TransactionData) (now : String) (fromIso : String → Option String)
    (h1 : inp.transaction_id ≠ "") (h2 : inp.authTokenConfigured = true)
    (h3 : inp.baseUrlConfigured = true) (h4 : inp.dbPoolAvailable = true)
    (h5 : inp.lookup = Option.some d)
    (h6 : pyTruthyStr d.transaction_id = true) :
    payliance_debit_function inp now fromIso = alreadySentResult := by
  simp [payliance_debit_function, alreadySentResult, alreadySentResponse,
    h1, h2, h3, h4, h5, h6]

/-- Claim C3 witness: a concrete settled record short-circuits. -/
theorem c3_already_settled_short_circuit_witness :
    payliance_debit_function settledInput now0 noIso = alreadySentResult :=
  c3_already_settled_short_circuit settledInput settledTransactionData
    now0 noIso (by decide) (by rfl) (by rfl) (by rfl) (by rfl) (by decide)

/-- Claim C9 (confirmed): on a fully successful gateway reply (200,
`ValidationCode = 1`, truthy `AuthorizationId`), the reported HTTP
outcome is success regardless of whether the settlement-event insert
succeeds, returns failure, or raises — the insert result affects only
`eventInserted`. -/
theorem c9_persistence_failure_still_reports_success (inp : DispatchInput)
    (d : TransactionData) (now : String) (fromIso : String → Option String)
    (auth : Option String) (text : String)
    (hr : ReachesGateway inp d)
    (hgw : inp.gateway = GatewayResult.response 200
      (ResponseBody.parsed (Option.some 1) auth) text)
    (hauth : pyTruthyStr auth = true) :
    ∀ r : Option Bool,
      (payliance_debit_function { inp with insertResult := r } now
        fromIso).httpResponse = success200Response
    ∧ (payliance_debit_function { inp with insertResult := r } now
        fromIso).insertAttempted = true
    ∧ (payliance_debit_function { inp with insertResult := r } now
        fromIso).eventInserted = (r == Option.some true) := by
  obtain ⟨h1, h2, h3, h4, h5, h6⟩ := hr
  intro r
  simp [payliance_debit_function, dispatchGatewayCall, success200Response,
    h1, h2, h3, h4, h5, h6, hgw, hauth]

/-- Claim C9 witness: with the insert reporting failure, the dispatcher
still replies success while recording no settlement event. -/
theorem c9_persistence_failure_still_reports_success_witness :
    (payliance_debit_function insertFailedInput now0 noIso).httpResponse
      = success200Response
  ∧ (payliance_debit_function insertFailedInput now0 noIso).eventInserted
      = false :=
  ⟨(c9_persistence_failure_still_reports_success baseDispatchInput
      emptyTransactionData now0 noIso (Option.some "A1") ""
      ⟨by decide, by rfl, by rfl, by rfl, by rfl, by rfl⟩ (by rfl) (by rfl)
      (Option.some false)).1,
   (c9_persistence_failure_still_reports_success baseDispatchInput
      emptyTransactionData now0 noIso (Option.some "A1") ""
      ⟨by decide, by rfl, by rfl, by rfl, by rfl, by rfl⟩ (by rfl) (by rfl)
      (Option.some false)).2.2⟩

/-- Claim C10 (confirmed): a 200 gateway reply whose body does not parse
as JSON is reported as success with no settlement event persisted, and on
the queue path a 200 from the debit endpoint with an unparseable body is
likewise assumed successful. -/
theorem c10_unparseable_200_reports_success (inp : DispatchInput)
    (d : TransactionData) (now : String) (fromIso : String → Option String)
    (text tid2 text2 : String)
    (hr : ReachesGateway inp d)
    (hgw : inp.gateway = GatewayResult.response 200 ResponseBody.invalid text) :
    (payliance_debit_function inp now fromIso).httpResponse = success200Response
  ∧ (payliance_debit_function inp now fromIso).insertAttempted = false
  ∧ (payliance_debit_function inp now fromIso).eventInserted = false
  ∧ call_debit_endpoint_with_error_handling tid2
      (InnerCallResult.response 200 InnerBody.invalid text2)
      = callSuccessResult := by
  obtain ⟨h1, h2, h3, h4, h5, h6⟩ := hr
  refine ⟨?_, ?_, ?_, rfl⟩ <;>
    simp [payliance_debit_function, dispatchGatewayCall, success200Response,
      h1, h2, h3, h4, h5, h6, hgw]

/-- Claim C10 witness: concrete unparseable-body 200 replies. -/
theorem c10_unparseable_200_reports_success_witness :
    (payliance_debit_function invalidBodyInput now0 noIso).httpResponse
      = success200Response
  ∧ call_debit_endpoint_with_error_handling "T1"
      (InnerCallResult.response 200 InnerBody.invalid "<html>")
      = callSuccessResult :=
  ⟨(c10_unparseable_200_reports_success invalidBodyInput
      emptyTransactionData now0 noIso "<html>" "T1" "<html>"
      ⟨by decide, by rfl, by rfl, by rfl, by rfl, by rfl⟩ (by rfl)).1,
   (c10_unparseable_200_reports_success invalidBodyInput
      emptyTransactionData now0 noIso "<html>" "T1" "<html>"
      ⟨by decide, by rfl, by rfl, by rfl, by rfl, by rfl⟩ (by rfl)).2.2.2⟩

lemma noneTypeGetMessage_transient :
    classify_error { kind := ExcKind.genericExc, message := noneTypeGetMessage }
      Option.none = ErrorType.transient := by rfl

lemma statusClassification_none (s : Nat) (h0 : s ≠ 0)
    (h5 : ¬(500 ≤ s ∧ s < 600)) (h429 : s ≠ 429)
    (hp : s ∉ permanent_status_codes) :
    statusClassification (Option.some s) = Option.none := by
  simp only [statusClassification]
  rw [if_neg h0, if_neg h5, if_neg h429, if_neg hp]

lemma classify_genericExc_keywordless (msg : String) (s : Nat)
    (hst : statusClassification (Option.some s) = Option.none)
    (hkw : messageHasPermanentKeyword msg = false) :
    classify_error { kind := ExcKind.genericExc, message := msg }
      (Option.some s) = ErrorType.transient := by
  simp [classify_error, hst, hkw]

/-- Claim C2 counterexample: an already-settled transaction is NOT
acknowledged on the queue path.  The dispatcher short-circuits with the
200 "Transaction already sent to Payliance" reply carrying
`success = false`; the queue helper then classifies the resulting
"Debit endpoint returned success=false: ..." message at status 200 —
which matches no permanent keyword — as transient, so the processor
requests redelivery instead of acknowledging. -/
theorem c2_counterexample_settled_message_retried :
    (payliance_debit_function settledInput now0 noIso).httpResponse
      = alreadySentResponse
  ∧ (service_bus_debit_processor (QueueMessage.parsed (Option.some "T1"))
      (InnerCallResult.response 200
        (InnerBody.parsed false
          (pyDictReprAlreadySent "00000000-0000-0000-0000-000000000000"))
        "")).decision = MessageDecision.requestRetry := by
  refine ⟨?_, ?_⟩ <;> rfl

/-- Claim C2 (amended): for a parsed message with a truthy transaction
id, the processor acknowledges iff the internal call reports success or a
permanent failure, and requests retry iff it reports a transient failure;
an already-settled transaction, however, surfaces as a 200 reply with
`success = false` classified transient (see the counterexample), so it is
retried rather than acknowledged. -/
theorem c2_policy_ack_iff (tid : String) (inner : InnerCallResult)
    (h : pyTruthyStr (Option.some tid) = true) :
    ((service_bus_debit_processor (QueueMessage.parsed (Option.some tid))
        inner).decision = MessageDecision.acknowledge ↔
      ((call_debit_endpoint_with_error_handling tid inner).success = true ∨
        (call_debit_endpoint_with_error_handling tid inner).error_type
          = Option.some ErrorType.permanent))
  ∧ ((service_bus_debit_processor (QueueMessage.parsed (Option.some tid))
        inner).decision = MessageDecision.requestRetry ↔
      ((call_debit_endpoint_with_error_handling tid inner).success = false ∧
        (call_debit_endpoint_with_error_handling tid inner).error_type
          = Option.some ErrorType.transient)) := by
  cases inner with
  | response s body text =>
    by_cases hs : s = 200
    · subst hs
      cases body with
      | parsed ok reprText =>
        cases ok with
        | false =>
          cases hcl : classify_error { kind := ExcKind.genericExc, message := "Debit endpoint returned success=false: " ++ reprText } (Option.some 200) <;>
            simp [service_bus_debit_processor,
              call_debit_endpoint_with_error_handling, h, hcl]
        | true =>
          simp [service_bus_debit_processor,
            call_debit_endpoint_with_error_handling, h]
      | invalid =>
        simp [service_bus_debit_processor,
          call_debit_endpoint_with_error_handling, h]
    · cases hcl : classify_error { kind := ExcKind.genericExc, message := "Debit endpoint call failed with status " ++ natToString s ++ ": " ++ text } (Option.some s) <;>
        simp [service_bus_debit_processor,
          call_debit_endpoint_with_error_handling, h, hs, hcl]
  | timeoutFailure =>
    simp [service_bus_debit_processor,
      call_debit_endpoint_with_error_handling, h]
  | networkFailure =>
    simp [service_bus_debit_processor,
      call_debit_endpoint_with_error_handling, h]
  | requestFailure msg =>
    cases hcl : classify_error { kind := ExcKind.genericExc, message := msg } Option.none <;>
      simp [service_bus_debit_processor,
        call_debit_endpoint_with_error_handling, h, hcl]
  | unexpectedFailure msg =>
    cases hcl : classify_error { kind := ExcKind.genericExc, message := msg } Option.none <;>
      simp [service_bus_debit_processor,
        call_debit_endpoint_with_error_handling, h, hcl]

/-- Claim C2 witness: the amended equivalence at a concrete transient
(timeout) inner-call outcome. -/
theorem c2_policy_ack_iff_witness :
    (service_bus_debit_processor (QueueMessage.parsed (Option.some "T1"))
      InnerCallResult.timeoutFailure).decision = MessageDecision.requestRetry :=
  ((c2_policy_ack_iff "T1" InnerCallResult.timeoutFailure (by rfl)).2).mpr
    ⟨by rfl, by rfl⟩

/-- Claim C8 counterexample: a gateway 429 reply is classified transient,
and the synchronous response echoes status 429 — a 4xx status, neither
5xx nor 408 — refuting the claimed "Transient → 5xx/408" mapping. -/
theorem c8_counterexample_transient_429 :
    (payliance_debit_function status429Input now0 noIso).httpResponse.errorType
      = Option.some ErrorType.transient
  ∧ (payliance_debit_function status429Input now0 noIso).httpResponse.success
      = false
  ∧ (payliance_debit_function status429Input now0 noIso).httpResponse.statusCode
      = 429
  ∧ (payliance_debit_function status429Input now0 noIso).httpResponse.statusCode
      < 500
  ∧ 408 < (payliance_debit_function status429Input now0 noIso).httpResponse.statusCode := by
  refine ⟨?_, ?_, ?_, ?_, ?_⟩ <;> decide

/-- Claim C8 (amended): every classified synchronous failure reply
carries `success = false`; a permanent classification always yields a 4xx
response status; a transient classification yields a 5xx status, 408, or
the gateway's own non-200 status echoed back (which need not be 5xx/408 —
e.g. 429). -/
theorem c8_failure_status_mapping (inp : DispatchInput) (now : String)
    (fromIso : String → Option String) (et : ErrorType)
    (h : (payliance_debit_function inp now fromIso).httpResponse.errorType
      = Option.some et) :
    (payliance_debit_function inp now fromIso).httpResponse.success = false
  ∧ (et = ErrorType.permanent →
      400 ≤ (payliance_debit_function inp now fromIso).httpResponse.statusCode ∧
      (payliance_debit_function inp now fromIso).httpResponse.statusCode < 500)
  ∧ (et = ErrorType.transient →
      (500 ≤ (payliance_debit_function inp now fromIso).httpResponse.statusCode ∧
        (payliance_debit_function inp now fromIso).httpResponse.statusCode < 600)
      ∨ (payliance_debit_function inp now fromIso).httpResponse.statusCode = 408
      ∨ (∃ s body text, inp.gateway = GatewayResult.response s body text ∧
          (payliance_debit_function inp now fromIso).httpResponse.statusCode
            = s)) := by
  obtain ⟨tid, authC, baseC, pool, lookup, gw, ins⟩ := inp
  by_cases htid : tid = ""
  · simp [payliance_debit_function, htid] at h
  · cases authC with
    | false => simp [payliance_debit_function, htid] at h
    | true =>
      cases baseC with
      | false => simp [payliance_debit_function, htid] at h
      | true =>
        cases pool with
        | false =>
          simp [payliance_debit_function, htid, noneTypeGetMessage_transient]
            at h ⊢
          all_goals subst h
          all_goals decide
        | true =>
          cases lookup with
          | none =>
            simp [payliance_debit_function, htid, noneTypeGetMessage_transient]
              at h ⊢
            all_goals subst h
            all_goals decide
          | some d =>
            by_cases hmark : pyTruthyStr d.transaction_id = true
            · simp [payliance_debit_function, htid, hmark] at h
            · rw [Bool.not_eq_true] at hmark
              cases gw with
              | timeoutFailure =>
                simp [payliance_debit_function, dispatchGatewayCall, htid,
                  hmark] at h ⊢
              | networkFailure =>
                simp [payliance_debit_function, dispatchGatewayCall, htid,
                  hmark] at h ⊢
                all_goals subst h
                all_goals decide
              | requestFailure msg =>
                cases hcl : classify_error { kind := ExcKind.genericExc, message := msg } Option.none with
                | transient =>
                  simp [payliance_debit_function, dispatchGatewayCall, htid,
                    hmark, hcl] at h ⊢
                  all_goals subst h
                  all_goals decide
                | permanent =>
                  simp [payliance_debit_function, dispatchGatewayCall, htid,
                    hmark, hcl] at h ⊢
                  all_goals subst h
                  all_goals decide
              | response s body text =>
                by_cases hs : s = 200
                · subst hs
                  simp [payliance_debit_function, dispatchGatewayCall, htid,
                    hmark] at h
                · by_cases h0 : s = 0
                  · subst h0
                    have hcl : classify_error { kind := ExcKind.genericExc, message := "HTTP " ++ natToString 0 } (Option.some 0) = ErrorType.transient := by
                      apply classify_genericExc_keywordless
                      · rfl
                      · exact httpMsg_no_keyword 0
                    simp [payliance_debit_function, dispatchGatewayCall, htid,
                      hmark, hs, hcl] at h ⊢
                    all_goals subst h
                    all_goals decide
                  · by_cases h5 : 500 ≤ s ∧ s < 600
                    · have hcl := classify_genericExc_status
                        ("HTTP " ++ natToString s) s ErrorType.transient
                        (statusClassification_transient s (Or.inl h5))
                      simp [payliance_debit_function, dispatchGatewayCall,
                        htid, hmark, hs, h0, hcl] at h ⊢
                      all_goals subst h
                      all_goals first
                        | decide
                        | exact fun he => by cases he
                    · by_cases h429 : s = 429
                      · subst h429
                        have hcl := classify_genericExc_status
                          ("HTTP " ++ natToString 429) 429 ErrorType.transient
                          (statusClassification_transient 429 (Or.inr rfl))
                        simp [payliance_debit_function, dispatchGatewayCall,
                          htid, hmark, hs, h0, hcl] at h ⊢
                      · by_cases hperm : s ∈ permanent_status_codes
                        · have hcl := classify_genericExc_status
                            ("HTTP " ++ natToString s) s ErrorType.permanent
                            (statusClassification_permanent s hperm)
                          have hrange : 400 ≤ s ∧ s < 500 := by
                            simp only [permanent_status_codes,
                              List.mem_cons, List.not_mem_nil, or_false]
                              at hperm
                            omega
                          simp [payliance_debit_function, dispatchGatewayCall,
                            htid, hmark, hs, h0, hcl] at h ⊢
                          all_goals subst h
                          all_goals first
                            | decide
                            | exact fun _ => hrange
                        · have hcl : classify_error { kind := ExcKind.genericExc, message := "HTTP " ++ natToString s } (Option.some s) = ErrorType.transient :=
                            classify_genericExc_keywordless _ s
                              (statusClassification_none s h0 h5 h429 hperm)
                              (httpMsg_no_keyword s)
                          simp [payliance_debit_function, dispatchGatewayCall,
                            htid, hmark, hs, h0, hcl] at h ⊢
                          all_goals subst h
                          all_goals first
                            | decide
                            | exact fun he => by cases he

/-- Claim C8 witness: the amended mapping at a concrete transient
failure (gateway timeout → 408). -/
theorem c8_failure_status_mapping_witness :
    (payliance_debit_function timeoutInput now0 noIso).httpResponse.success
      = false
  ∧ ((500 ≤ (payliance_debit_function timeoutInput now0 noIso).httpResponse.statusCode ∧
        (payliance_debit_function timeoutInput now0 noIso).httpResponse.statusCode < 600)
      ∨ (payliance_debit_function timeoutInput now0 noIso).httpResponse.statusCode = 408
      ∨ (∃ s body text, timeoutInput.gateway = GatewayResult.response s body text ∧
          (payliance_debit_function timeoutInput now0 noIso).httpResponse.statusCode = s)) :=
  ⟨(c8_failure_status_mapping timeoutInput now0 noIso ErrorType.transient
      (by rfl)).1,
   (c8_failure_status_mapping timeoutInput now0 noIso ErrorType.transient
      (by rfl)).2.2 rfl⟩
